import Mathlib

/-!
Verification: Verification of the VortexLatticeMethod solver

A shallow embedding of `aerosandbox/aerodynamics/aero_3D/vortex_lattice_method.py`
(class `VortexLatticeMethod`).  Three-dimensional vectors are modelled by `Vec3 K`
over a field `K` (exact rational arithmetic `ℚ` for executable witnesses, `ℝ`
where Euclidean norms matter).  External collaborators — the horseshoe-vortex
induced-velocity kernel, the operating-point kinematics, the airfoil polar, the
dense linear solver, and the numerical vector norm — are passed as explicit
function parameters, mirroring how the source consumes them.
-/

namespace VLM

/-- A 3-vector, the embedding of one row of an `Nx3` numpy array. -/
structure Vec3 (K : Type) where
  x : K
  y : K
  z : K
deriving DecidableEq, Repr

variable {K : Type} [Field K]

instance : Add (Vec3 K) :=
  ⟨fun a b => ⟨a.x + b.x, a.y + b.y, a.z + b.z⟩⟩

instance : Zero (Vec3 K) :=
  ⟨⟨0, 0, 0⟩⟩

instance : Neg (Vec3 K) :=
  ⟨fun a => ⟨-a.x, -a.y, -a.z⟩⟩

instance : Sub (Vec3 K) :=
  ⟨fun a b => ⟨a.x - b.x, a.y - b.y, a.z - b.z⟩⟩

instance : SMul K (Vec3 K) :=
  ⟨fun c v => ⟨c * v.x, c * v.y, c * v.z⟩⟩

theorem Vec3.add_def (a b : Vec3 K) : a + b = ⟨a.x + b.x, a.y + b.y, a.z + b.z⟩ := rfl

theorem Vec3.zero_def : (0 : Vec3 K) = ⟨0, 0, 0⟩ := rfl

theorem Vec3.sub_def (a b : Vec3 K) : a - b = ⟨a.x - b.x, a.y - b.y, a.z - b.z⟩ := rfl

theorem Vec3.smul_def (c : K) (v : Vec3 K) : c • v = ⟨c * v.x, c * v.y, c * v.z⟩ := rfl

omit [Field K] in
theorem Vec3.ext3 (a b : Vec3 K) (hx : a.x = b.x) (hy : a.y = b.y) (hz : a.z = b.z) :
    a = b := by
  cases a
  cases b
  simp_all

instance : AddCommMonoid (Vec3 K) where
  add_assoc a b c := by
    refine Vec3.ext3 _ _ ?_ ?_ ?_ <;> simp [Vec3.add_def, add_assoc]
  zero_add a := by
    refine Vec3.ext3 _ _ ?_ ?_ ?_ <;> simp [Vec3.add_def, Vec3.zero_def]
  add_zero a := by
    refine Vec3.ext3 _ _ ?_ ?_ ?_ <;> simp [Vec3.add_def, Vec3.zero_def]
  add_comm a b := by
    refine Vec3.ext3 _ _ ?_ ?_ ?_ <;> simp [Vec3.add_def, add_comm]
  nsmul := nsmulRec

/-- Dot product, the embedding of `np.sum(a * b, axis=1)` for row vectors. -/
def dot3 (a b : Vec3 K) : K :=
  a.x * b.x + a.y * b.y + a.z * b.z

/-- Cross product, the embedding of `np.cross(a, b, axis=1)` for row vectors. -/
def cross3 (a b : Vec3 K) : Vec3 K :=
  ⟨a.y * b.z - a.z * b.y, a.z * b.x - a.x * b.z, a.x * b.y - a.y * b.x⟩

/-- The first coordinate as an additive monoid morphism (used to push sums inside). -/
def xHom : Vec3 K →+ K where
  toFun := Vec3.x
  map_zero' := rfl
  map_add' _ _ := rfl

/-- The second coordinate as an additive monoid morphism. -/
def yHom : Vec3 K →+ K where
  toFun := Vec3.y
  map_zero' := rfl
  map_add' _ _ := rfl

/-- The third coordinate as an additive monoid morphism. -/
def zHom : Vec3 K →+ K where
  toFun := Vec3.z
  map_zero' := rfl
  map_add' _ _ := rfl

theorem dot3_sum {ι : Type} (s : Finset ι) (a : Vec3 K) (f : ι → Vec3 K) :
    dot3 a (∑ i ∈ s, f i) = ∑ i ∈ s, dot3 a (f i) := by
  have hx : (∑ i ∈ s, f i).x = ∑ i ∈ s, (f i).x := map_sum (xHom (K := K)) f s
  have hy : (∑ i ∈ s, f i).y = ∑ i ∈ s, (f i).y := map_sum (yHom (K := K)) f s
  have hz : (∑ i ∈ s, f i).z = ∑ i ∈ s, (f i).z := map_sum (zHom (K := K)) f s
  simp only [dot3, hx, hy, hz, Finset.mul_sum]
  rw [← Finset.sum_add_distrib, ← Finset.sum_add_distrib]

/-- A 3x3 matrix given by rows; the embedding of one of the (linear)
`OperatingPoint.convert_axes` coordinate rotations, which the solver consumes
as an external collaborator. -/
structure Mat3 (K : Type) where
  r1 : Vec3 K
  r2 : Vec3 K
  r3 : Vec3 K

/-- Matrix-vector product: applying an axis-conversion rotation to one vector. -/
def mulVec3 (M : Mat3 K) (v : Vec3 K) : Vec3 K :=
  ⟨dot3 M.r1 v, dot3 M.r2 v, dot3 M.r3 v⟩

theorem mulVec3_sum {ι : Type} (s : Finset ι) (M : Mat3 K) (f : ι → Vec3 K) :
    mulVec3 M (∑ i ∈ s, f i) = ∑ i ∈ s, mulVec3 M (f i) := by
  refine Vec3.ext3 _ _ ?_ ?_ ?_
  · show dot3 M.r1 (∑ i ∈ s, f i) = (∑ i ∈ s, mulVec3 M (f i)).x
    rw [dot3_sum]
    exact (map_sum (xHom (K := K)) (fun i => mulVec3 M (f i)) s).symm
  · show dot3 M.r2 (∑ i ∈ s, f i) = (∑ i ∈ s, mulVec3 M (f i)).y
    rw [dot3_sum]
    exact (map_sum (yHom (K := K)) (fun i => mulVec3 M (f i)) s).symm
  · show dot3 M.r3 (∑ i ∈ s, f i) = (∑ i ∈ s, mulVec3 M (f i)).z
    rw [dot3_sum]
    exact (map_sum (zHom (K := K)) (fun i => mulVec3 M (f i)) s).symm

/-!
Section: Panel geometry (source lines 202-250)

Panels arrive from the (out-of-scope) mesher as four ordered vertex arrays.
Downstream reshapes require `panel count = number_of_strips * chordwise_resolution`,
so panels are indexed by `Fin (S * C)` where panel `s*C + c` is chordwise position
`c` of strip `s` (numpy row-major reshape order).
-/

/-- The four per-panel vertex arrays produced by the mesher
(`front_left_vertices`, `back_left_vertices`, `back_right_vertices`,
`front_right_vertices` after concatenation, source lines 202-205). -/
structure Geometry (K : Type) (n : ℕ) where
  frontLeft : Fin n → Vec3 K
  backLeft : Fin n → Vec3 K
  backRight : Fin n → Vec3 K
  frontRight : Fin n → Vec3 K

variable {n S C : ℕ}

/-- Source: `diag1 = front_right_vertices - back_left_vertices` (source line 219). -/
def diag1 (g : Geometry K n) (i : Fin n) : Vec3 K :=
  g.frontRight i - g.backLeft i

/-- Source: `diag2 = front_left_vertices - back_right_vertices` (source line 220). -/
def diag2 (g : Geometry K n) (i : Fin n) : Vec3 K :=
  g.frontLeft i - g.backRight i

/-- Source: `cross = np.cross(diag1, diag2)` (source line 221). -/
def panelCross (g : Geometry K n) (i : Fin n) : Vec3 K :=
  cross3 (diag1 g i) (diag2 g i)

/-- Source: `normal_directions = cross / tall(cross_norm)` (source line 223); the
numerical norm `np.linalg.norm(..., axis=1)` is an external routine passed
as the parameter `norm3`. -/
def normalDirections (norm3 : Vec3 K → K) (g : Geometry K n) (i : Fin n) : Vec3 K :=
  (1 / norm3 (panelCross g i)) • panelCross g i

/-- Source: `areas = cross_norm / 2` (source line 224). -/
def areas (norm3 : Vec3 K → K) (g : Geometry K n) (i : Fin n) : K :=
  norm3 (panelCross g i) / 2

/-- Source: `left_vortex_vertices = 0.75 * front_left_vertices + 0.25 * back_left_vertices`
(source line 227). -/
def leftVortexVertices (g : Geometry K n) (i : Fin n) : Vec3 K :=
  ((3 : K) / 4) • g.frontLeft i + ((1 : K) / 4) • g.backLeft i

/-- Source: `right_vortex_vertices = 0.75 * front_right_vertices + 0.25 * back_right_vertices`
(source line 228). -/
def rightVortexVertices (g : Geometry K n) (i : Fin n) : Vec3 K :=
  ((3 : K) / 4) • g.frontRight i + ((1 : K) / 4) • g.backRight i

/-- Source: `vortex_centers = (left_vortex_vertices + right_vortex_vertices) / 2`
(source line 229). -/
def vortexCenters (g : Geometry K n) (i : Fin n) : Vec3 K :=
  ((1 : K) / 2) • (leftVortexVertices g i + rightVortexVertices g i)

/-- Source: `vortex_bound_leg = right_vortex_vertices - left_vortex_vertices`
(source line 230). -/
def vortexBoundLeg (g : Geometry K n) (i : Fin n) : Vec3 K :=
  rightVortexVertices g i - leftVortexVertices g i

/-- Source: `collocation_points = 0.5*(0.25*front_left + 0.75*back_left)
+ 0.5*(0.25*front_right + 0.75*back_right)` (source lines 231-233). -/
def collocationPoints (g : Geometry K n) (i : Fin n) : Vec3 K :=
  ((1 : K) / 2) • (((1 : K) / 4) • g.frontLeft i + ((3 : K) / 4) • g.backLeft i) +
    ((1 : K) / 2) • (((1 : K) / 4) • g.frontRight i + ((3 : K) / 4) • g.backRight i)

/-!
Section: Operating point and flowfield evaluation (source lines 252-277, 744-804)
-/

/-- The operating-point collaborator, as consumed by `run()`:
`compute_freestream_velocity_geometry_axes()` is the steady translational
freestream, `compute_rotation_velocity_geometry_axes(points)` the per-point
rotational contribution of the body rates p, q, r (the rates enter the solver
only through this function), plus scalar atmosphere quantities. -/
structure OpData (K : Type) where
  steadyFreestreamVelocity : Vec3 K
  rotationVelocity : Vec3 K → Vec3 K
  density : K
  dynamicPressure : K
  kinematicViscosity : K
  velocity : K

/-- Source: `steady_freestream_direction = steady_freestream_velocity / np.linalg.norm(...)`
(source lines 258-260). -/
def steadyFreestreamDirection (norm3 : Vec3 K → K) (op : OpData K) : Vec3 K :=
  (1 / norm3 op.steadyFreestreamVelocity) • op.steadyFreestreamVelocity

/-- The trailing-vortex direction argument passed to the kernel: the freestream
unit direction if `align_trailing_vortices_with_wind`, else the body x-axis
`[1, 0, 0]` (source lines 295-299). -/
def trailingVortexDirection (norm3 : Vec3 K → K) (op : OpData K) (align : Bool) : Vec3 K :=
  if align then steadyFreestreamDirection norm3 op else ⟨1, 0, 0⟩

/-- The type of the induced-velocity kernel collaborator
`calculate_induced_velocity_horseshoe`: arguments are the field point, the
left vortex vertex, the right vortex vertex, the trailing-vortex direction,
the circulation `gamma` and the vortex core radius; the result is the induced
velocity for that single (field point, filament) pair. -/
def Kernel (K : Type) : Type :=
  Vec3 K → Vec3 K → Vec3 K → Vec3 K → K → K → Vec3 K

/-- Source: `freestream_velocities = steady_freestream_velocity + rotation_freestream_velocities`
evaluated at the collocation points (source lines 261-267). -/
def freestreamVelocities (op : OpData K) (colloc : Fin n → Vec3 K) (i : Fin n) : Vec3 K :=
  op.steadyFreestreamVelocity + op.rotationVelocity (colloc i)

/-- Source: `freestream_influences = np.sum(freestream_velocities * normal_directions, axis=1)`
(source lines 270-272). -/
def freestreamInfluences (op : OpData K) (colloc normals : Fin n → Vec3 K) (i : Fin n) : K :=
  dot3 (freestreamVelocities op colloc i) (normals i)

/-- The AIC assembly (source lines 284-309): evaluate the kernel with unit
circulation `gamma = 1.0` for every (collocation point, filament) pair and dot
the induced velocity with the collocation panel's normal:
`AIC = u*n_x + v*n_y + w*n_z`. -/
def assembleAIC (kernel : Kernel K) (norm3 : Vec3 K → K) (colloc normals lv rv : Fin n → Vec3 K)
    (op : OpData K) (align : Bool) (coreRadius : K) : Fin n → Fin n → K :=
  fun i j =>
    dot3 (kernel (colloc i) (lv j) (rv j) (trailingVortexDirection norm3 op align) 1 coreRadius)
      (normals i)

/-- Source: `self.vortex_strengths = np.linalg.solve(AIC, -freestream_influences)`
(source line 315); the dense linear solver is the external routine `solve`. -/
def vortexStrengths (solve : (Fin n → Fin n → K) → (Fin n → K) → (Fin n → K))
    (kernel : Kernel K) (norm3 : Vec3 K → K) (colloc normals lv rv : Fin n → Vec3 K)
    (op : OpData K) (align : Bool) (coreRadius : K) : Fin n → K :=
  solve (assembleAIC kernel norm3 colloc normals lv rv op align coreRadius)
    (fun i => -(freestreamInfluences op colloc normals i))

/-- The solver state consumed by `get_induced_velocity_at_points` /
`get_velocity_at_points` (source lines 744-804): the kernel, the saved vortex
vertices, the trailing-vortex direction, the circulation strengths
(`gamma = wide(self.vortex_strengths)` — the solved values in a completed run),
the core radius and the operating-point freestream data. -/
structure FlowState (K : Type) (n : ℕ) where
  kernel : Kernel K
  leftV : Fin n → Vec3 K
  rightV : Fin n → Vec3 K
  tdir : Vec3 K
  gamma : Fin n → K
  coreRadius : K
  steady : Vec3 K
  rot : Vec3 K → Vec3 K

/-- Source: `get_induced_velocity_at_points` (source lines 744-781): kernel contribution
of every filament at its solved circulation, summed over filaments. -/
def inducedVelocityAt (st : FlowState K n) (p : Vec3 K) : Vec3 K :=
  ∑ j, st.kernel p (st.leftV j) (st.rightV j) st.tdir (st.gamma j) st.coreRadius

/-- Source: `get_velocity_at_points` (source lines 783-804): induced velocity plus the
local freestream (steady translation + rotation contribution at the point). -/
def velocityAt (st : FlowState K n) (p : Vec3 K) : Vec3 K :=
  inducedVelocityAt st p + (st.steady + st.rot p)

/-!
Section: Near-field forces and moments (source lines 317-339)
-/

/-- Source: `forces_geometry = density * np.cross(V_centers, vortex_bound_leg) * tall(vortex_strengths)`
(source lines 330-336), where `V_centers = get_velocity_at_points(vortex_centers)`
(source line 326).  The `centers` and `boundLeg` arguments receive
`vortexCenters g` and `vortexBoundLeg g` in a run. -/
def forcesGeometry (st : FlowState K n) (density : K) (centers boundLeg : Fin n → Vec3 K)
    (i : Fin n) : Vec3 K :=
  (density * st.gamma i) • cross3 (velocityAt st (centers i)) (boundLeg i)

/-- Source: `moments_geometry = np.cross(vortex_centers - xyz_ref, forces_geometry)`
(source lines 337-339). -/
def momentsGeometry (st : FlowState K n) (density : K) (centers boundLeg : Fin n → Vec3 K)
    (xyzRef : Vec3 K) (i : Fin n) : Vec3 K :=
  cross3 (centers i - xyzRef) (forcesGeometry st density centers boundLeg i)

/-!
Section: Elementwise wind-axes forces and strip aggregation (source lines 341-383)

`Mgw` is the (linear) geometry-to-wind axis conversion collaborator
`op_point.convert_axes(..., from_axes="geometry", to_axes="wind")`.
-/

/-- Source: `Le = -forces_wind_el[2]` (source lines 342-347). -/
def elementLift (Mgw : Mat3 K) (forces : Fin n → Vec3 K) (i : Fin n) : K :=
  -(mulVec3 Mgw (forces i)).z

/-- Source: `De = -forces_wind_el[0]` (source line 348). -/
def elementDrag (Mgw : Mat3 K) (forces : Fin n → Vec3 K) (i : Fin n) : K :=
  -(mulVec3 Mgw (forces i)).x

/-- Source: `Ye = -forces_wind_el[1]` (source line 349). -/
def elementSide (Mgw : Mat3 K) (forces : Fin n → Vec3 K) (i : Fin n) : K :=
  -(mulVec3 Mgw (forces i)).y

/-- The panel index of chordwise position `c` in strip `s` after numpy's
row-major `reshape((number_of_strips, chordwise_resolution))`:
`finProdFinEquiv (s, c)` has value `c + C * s`, the numpy flat index. -/
def panelIndex (s : Fin S) (c : Fin C) : Fin (S * C) :=
  finProdFinEquiv (s, c)

/-- One row-sum of `np.sum(np.reshape(f, (number_of_strips, chordwise_resolution)), axis=1)`
(source lines 363-369): the strip aggregate of a per-panel quantity. -/
def stripSum (f : Fin (S * C) → K) (s : Fin S) : K :=
  ∑ c : Fin C, f (panelIndex s c)

/-- Source: `Ls`, the per-strip inviscid lift (source line 363). -/
def stripLift (Mgw : Mat3 K) (forces : Fin (S * C) → Vec3 K) (s : Fin S) : K :=
  stripSum (elementLift Mgw forces) s

/-- Source: `Ys`, the per-strip side force (source line 365). -/
def stripSide (Mgw : Mat3 K) (forces : Fin (S * C) → Vec3 K) (s : Fin S) : K :=
  stripSum (elementSide Mgw forces) s

/-- Source: `As`, the per-strip area (source line 369). -/
def stripAreas (norm3 : Vec3 K → K) (g : Geometry K (S * C)) (s : Fin S) : K :=
  stripSum (areas norm3 g) s

/-- Source: `cLsi = np.divide(Ls, As) / q`, the strip inviscid lift coefficient
(source line 378). -/
def stripLiftCoefficient (Mgw : Mat3 K) (norm3 : Vec3 K → K) (g : Geometry K (S * C))
    (forces : Fin (S * C) → Vec3 K) (q : K) (s : Fin S) : K :=
  stripLift Mgw forces s / stripAreas norm3 g s / q

/-!
Section: Trailing/leading-edge selection and the viscous profile-drag pipeline
(source lines 171-176, 385-493)
-/

/-- Source: `is_trailing_edge = (np.arange(len(faces)) + 1) % chordwise_resolution == 0`
(source lines 171-173), as a predicate on the flat panel index. -/
def isTrailingEdgeFlag (C : ℕ) (i : ℕ) : Bool :=
  (i + 1) % C == 0

/-- Source: `is_leading_edge = np.arange(len(faces)) % chordwise_resolution == 0`
(source lines 174-176). -/
def isLeadingEdgeFlag (C : ℕ) (i : ℕ) : Bool :=
  i % C == 0

/-- The flat index of strip `s`'s trailing-edge panel, `s*C + (C-1)`:
boolean-mask selection `array[is_trailing_edge]` keeps exactly one panel per
strip, in strip order. -/
def teIndex (hC : 0 < C) (s : Fin S) : Fin (S * C) :=
  ⟨s.val * C + (C - 1), by
    have h1 := Nat.mul_le_mul_right C (Nat.succ_le_of_lt s.isLt)
    rw [Nat.succ_mul] at h1
    omega⟩

/-- The flat index of strip `s`'s leading-edge panel, `s*C`. -/
def leIndex (hC : 0 < C) (s : Fin S) : Fin (S * C) :=
  ⟨s.val * C, by
    have h1 := Nat.mul_le_mul_right C (Nat.succ_le_of_lt s.isLt)
    rw [Nat.succ_mul] at h1
    omega⟩

theorem teIndex_is_trailing_edge (hC : 0 < C) (s : Fin S) :
    isTrailingEdgeFlag C (teIndex hC s).val = true := by
  have h : (teIndex hC s).val + 1 = (s.val + 1) * C := by
    simp only [teIndex, Nat.succ_mul]
    omega
  simp [isTrailingEdgeFlag, h, Nat.mul_mod_left]

theorem leIndex_is_leading_edge (hC : 0 < C) (s : Fin S) :
    isLeadingEdgeFlag C (leIndex hC s).val = true := by
  simp [isLeadingEdgeFlag, leIndex, Nat.mul_mod_left]

/-- The per-strip evaluation points for the viscous force direction
(source lines 386-389):
`xyz_points = front_left_vertices[TE] + (front_right_vertices[TE] - front_left_vertices[TE])/2`
followed by the x-coordinate overwrite
`xyz_points[:, 0] = 10.0 * strip_back_left_vertices[:, 0]`.
`stripBackLeft` is the strip-level mesh array `strip_back_left_vertices`
(source lines 192-211). -/
def xyzEvalPoints (hC : 0 < C) (g : Geometry K (S * C)) (stripBackLeft : Fin S → Vec3 K)
    (s : Fin S) : Vec3 K :=
  let te := teIndex hC s
  let mid := g.frontLeft te + ((1 : K) / 2) • (g.frontRight te - g.frontLeft te)
  ⟨10 * (stripBackLeft s).x, mid.y, mid.z⟩

/-- Source: `aero_centers` (source lines 465-469):
`aero_centers_left = 0.75*front_left_vertices[LE] + 0.25*back_left_vertices[TE]`,
likewise on the right, then averaged. -/
def aeroCenters (hC : 0 < C) (g : Geometry K (S * C)) (s : Fin S) : Vec3 K :=
  let leI := leIndex hC s
  let teI := teIndex hC s
  ((1 : K) / 2) •
    ((((3 : K) / 4) • g.frontLeft leI + ((1 : K) / 4) • g.backLeft teI) +
      (((3 : K) / 4) • g.frontRight leI + ((1 : K) / 4) • g.backRight teI))

/-- Source: `forces_profile_geometry = 0.5 * density * velocities * tall(velocity_magnitudes)
* tall(CDps) * tall(As)` (source lines 452-463), with
`velocities = get_velocity_at_points(xyz_points)` and
`velocity_magnitudes = np.linalg.norm(velocities, axis=1)` embedded through the
numerical-norm parameter `norm3`.  `CDps` are the per-strip profile drag
coefficients produced by the Newton angle-matching loop. -/
def forcesProfileGeometry (norm3 : Vec3 K → K) (st : FlowState K (S * C)) (density : K)
    (hC : 0 < C) (g : Geometry K (S * C)) (stripBackLeft : Fin S → Vec3 K)
    (CDps : Fin S → K) (s : Fin S) : Vec3 K :=
  let v := velocityAt st (xyzEvalPoints hC g stripBackLeft s)
  (((1 : K) / 2) * density * norm3 v * CDps s * stripAreas norm3 g s) • v

/-- Source: `moments_profile_geometry = np.cross(aero_centers - xyz_ref, forces_profile_geometry)`
(source lines 472-475). -/
def momentsProfileGeometry (norm3 : Vec3 K → K) (st : FlowState K (S * C)) (density : K)
    (hC : 0 < C) (g : Geometry K (S * C)) (stripBackLeft : Fin S → Vec3 K)
    (CDps : Fin S → K) (xyzRef : Vec3 K) (s : Fin S) : Vec3 K :=
  cross3 (aeroCenters hC g s - xyzRef)
    (forcesProfileGeometry norm3 st density hC g stripBackLeft CDps s)

/-!
Section: Totals and axis conversion (source lines 477-541)

`Mgb` and `Mbw` are the geometry-to-body and body-to-wind axis-conversion
collaborators; `moment_pitching_geometry = 0` (source line 484).
-/

/-- Source: `force_geometry = np.sum(forces_geometry, axis=0) + force_profile_geometry`
(source lines 477, 487-489): the inviscid panel forces and the viscous strip
forces are summed in geometry axes before any axis conversion. -/
def totalForceGeometry (inviscid : Fin n → Vec3 K) (profile : Fin S → Vec3 K) : Vec3 K :=
  (∑ i, inviscid i) + ∑ s, profile s

/-- Source: `moment_geometry = np.sum(moments_geometry, axis=0) + moment_profile_geometry + 0`
(source lines 478, 484, 488-493). -/
def totalMomentGeometry (inviscid : Fin n → Vec3 K) (profile : Fin S → Vec3 K) : Vec3 K :=
  ((∑ i, inviscid i) + ∑ s, profile s) + 0

/-- Source: `force_wind = convert_axes(convert_axes(force_geometry, to body), to wind)`
(source lines 495-508). -/
def forceWind (Mgb Mbw : Mat3 K) (forceGeometry : Vec3 K) : Vec3 K :=
  mulVec3 Mbw (mulVec3 Mgb forceGeometry)

/-- Source: `L = -force_wind[2]` (source line 536). -/
def returnedLift (Mgb Mbw : Mat3 K) (forceGeometry : Vec3 K) : K :=
  -(forceWind Mgb Mbw forceGeometry).z

/-- Source: `Y = force_wind[1]` (source line 538). -/
def returnedSide (Mgb Mbw : Mat3 K) (forceGeometry : Vec3 K) : K :=
  (forceWind Mgb Mbw forceGeometry).y

/-!
Section: Viscous angle-matching Newton iteration (source lines 398-446)

The airfoil polar collaborator is abstracted as `polar : ℚ → ℚ`, the lift
coefficient `get_aero(af, alpha, Re)[0]` at a fixed airfoil and Reynolds
number; all angles are in degrees, as in the source.  `degPerRad` stands for
the numerical conversion factor `180/pi` used by `np.degrees` / `np.radians`
(`np.degrees x = degPerRad * x`, `np.radians x = x / degPerRad`).
-/

/-- Source: `get_gradients` (source lines 421-425): central finite difference of the
polar lift coefficient with a `+-0.25` degree perturbation, divided by `0.5`. -/
def liftCurveSlope (polar : ℚ → ℚ) (alpha : ℚ) : ℚ :=
  (polar (alpha + 1 / 4) - polar (alpha - 1 / 4)) / (1 / 2)

/-- The `for it in range(max_iter)` loop body (source lines 437-443): evaluate
the polar, break as soon as `abs(cl - cLsi) < 1e-4`, otherwise apply the Newton
update `alpha1 = alpha1 - error / cl_alpha`; when the fuel (remaining
iterations) runs out the current iterate is returned unchanged. -/
def newtonLoop (polar : ℚ → ℚ) (cLsi : ℚ) : ℕ → ℚ → ℚ
  | 0, alpha => alpha
  | fuel + 1, alpha =>
    if |polar alpha - cLsi| < 1 / 10000 then alpha
    else newtonLoop polar cLsi fuel (alpha - (polar alpha - cLsi) / liftCurveSlope polar alpha)

/-- The full per-strip angle matching (source lines 428-443): `CLa = 5`,
`alpha0 = np.radians(-2)`, initial guess
`alpha1 = np.degrees((cLsi + CLa * alpha0) / CLa)`, then at most
`max_iter = 100` Newton iterations with tolerance `tol = 1e-4`. -/
def viscousMatchAlpha (polar : ℚ → ℚ) (degPerRad cLsi : ℚ) : ℚ :=
  newtonLoop polar cLsi 100 (degPerRad * ((cLsi + 5 * ((-2) / degPerRad)) / 5))

/-!
Section: Stability derivatives (source lines 587-742)

`run()` is abstracted as a black-box map `runF` from the operating point to the
six force/moment coefficients; `run_with_stability_derivatives` re-runs it on a
copy of the operating point with one attribute incremented.
-/

/-- The mutable operating-point attributes touched by
`run_with_stability_derivatives`. -/
structure OpPoint (K : Type) where
  alpha : K
  beta : K
  p : K
  q : K
  r : K
  velocity : K

/-- The six nondimensional coefficients of a `run()` result. -/
structure Coeffs (K : Type) where
  CL : K
  CD : K
  CY : K
  Cl : K
  Cm : K
  Cn : K

/-- The five perturbed degrees of freedom. -/
inductive Dof
  | alpha
  | beta
  | p
  | q
  | r
deriving DecidableEq, Repr

/-- Source: `finite_difference_amounts` (source lines 664-670). -/
def finiteDifferenceAmount (op : OpPoint K) (bref cref : K) : Dof → K
  | .alpha => 1 / 1000
  | .beta => 1 / 1000
  | .p => 1 / 1000 * (2 * op.velocity) / bref
  | .q => 1 / 1000 * (2 * op.velocity) / cref
  | .r => 1 / 1000 * (2 * op.velocity) / bref

/-- Source: `scaling_factors` (source lines 671-677); `np.degrees(1)` is `degPerRad`. -/
def scalingFactor (degPerRad : K) (op : OpPoint K) (bref cref : K) : Dof → K
  | .alpha => degPerRad
  | .beta => degPerRad
  | .p => 2 * op.velocity / bref
  | .q => 2 * op.velocity / cref
  | .r => 2 * op.velocity / bref

/-- Source: `incremented_op_point = copy.copy(original_op_point)` followed by
`__setattr__(dof, original + finite_difference_amount)` (source lines 699-706):
a copy with only the selected attribute incremented. -/
def incrementedOpPoint (op : OpPoint K) (bref cref : K) : Dof → OpPoint K
  | .alpha => { op with alpha := op.alpha + finiteDifferenceAmount op bref cref .alpha }
  | .beta => { op with beta := op.beta + finiteDifferenceAmount op bref cref .beta }
  | .p => { op with p := op.p + finiteDifferenceAmount op bref cref .p }
  | .q => { op with q := op.q + finiteDifferenceAmount op bref cref .q }
  | .r => { op with r := op.r + finiteDifferenceAmount op bref cref .r }

/-- One finite-difference derivative entry (source lines 712-730):
`(run_incremented[num] - run_base[num]) / finite_difference_amount * scaling_factor`,
where `run_incremented` is a full re-run at the incremented operating point. -/
def stabilityDerivative (runF : OpPoint K → Coeffs K) (op : OpPoint K)
    (bref cref degPerRad : K) (d : Dof) (num : Coeffs K → K) : K :=
  (num (runF (incrementedOpPoint op bref cref d)) - num (runF op)) /
      finiteDifferenceAmount op bref cref d *
    scalingFactor degPerRad op bref cref d

/-- Source: `x_np = xyz_ref[0] - Cma * (c_ref / CLa)` (source lines 733-736). -/
def neutralPoint (runF : OpPoint K → Coeffs K) (op : OpPoint K)
    (bref cref degPerRad xyzRef0 : K) : K :=
  xyzRef0 -
    stabilityDerivative runF op bref cref degPerRad .alpha Coeffs.Cm *
      (cref / stabilityDerivative runF op bref cref degPerRad .alpha Coeffs.CL)

/-- Source: `x_np_lateral = xyz_ref[0] - Cnb * (b_ref / CYb)` (source lines 737-739). -/
def lateralNeutralPoint (runF : OpPoint K → Coeffs K) (op : OpPoint K)
    (bref cref degPerRad xyzRef0 : K) : K :=
  xyzRef0 -
    stabilityDerivative runF op bref cref degPerRad .beta Coeffs.Cn *
      (bref / stabilityDerivative runF op bref cref degPerRad .beta Coeffs.CY)

/-!
Section: Streamline tracing (source lines 806-879)

`np.linalg.norm(V, axis=1)` is the numerical backend's Euclidean vector norm,
consumed — like the kernel — as the collaborator parameter `norm3`.
-/

/-- The forward-Euler recurrence (source lines 866-872): slice 0 is the seed;
slice `i` is slice `i-1` advanced by `length / n_steps * V / norm(V)` with `V`
the total velocity at slice `i-1`. -/
def streamlinePos (norm3 : Vec3 K → K) (st : FlowState K n) (nSteps : ℕ) (length : K)
    (seed : Vec3 K) : ℕ → Vec3 K
  | 0 => seed
  | k + 1 =>
    let prev := streamlinePos norm3 st nSteps length seed k
    let V := velocityAt st prev
    prev + (length / (nSteps : K)) • ((1 / norm3 V) • V)

/-- Source: `calculate_streamlines` (source lines 806-879) restricted to explicit seed
points: the optional `length` defaults to `airplane.c_ref * 5`
(source lines 840-841); entry `(i, k)` is streamline `i` at step slice `k`. -/
def calculateStreamlines {m : ℕ} (norm3 : Vec3 K → K) (st : FlowState K n)
    (seeds : Fin m → Vec3 K) (nSteps : ℕ) (lengthOpt : Option K) (cref : K)
    (i : Fin m) (k : ℕ) : Vec3 K :=
  streamlinePos norm3 st nSteps (lengthOpt.getD (cref * 5)) (seeds i) k

/-!
Section: Constructor and draw() control flow (source lines 42-94, 881-988)
-/

/-- The configuration fields assigned by `__init__` (source lines 67-81)
before the symmetry check. -/
structure VLMSettings (K : Type) where
  verbose : Bool
  spanwiseResolution : ℕ
  chordwiseResolution : ℕ
  vortexCoreRadius : K
  alignTrailingVorticesWithWind : Bool
  modelSize : String
  runSymmetric : Bool

/-- Source: `__init__` (source lines 42-94): assigns the configuration, sets
`run_symmetric = False`, then raises
`NotImplementedError("VLM with symmetry detection not yet implemented!")`
if `run_symmetric_if_possible` was requested.  No solving happens here. -/
def vlmInit (runSymmetricIfPossible verbose : Bool) (spanwiseResolution chordwiseResolution : ℕ)
    (vortexCoreRadius : K) (alignTrailingVorticesWithWind : Bool) (modelSize : String) :
    Except String (VLMSettings K) :=
  let s : VLMSettings K :=
    { verbose := verbose
      spanwiseResolution := spanwiseResolution
      chordwiseResolution := chordwiseResolution
      vortexCoreRadius := vortexCoreRadius
      alignTrailingVorticesWithWind := alignTrailingVorticesWithWind
      modelSize := modelSize
      runSymmetric := false }
  if runSymmetricIfPossible then
    Except.error "VLM with symmetry detection not yet implemented!"
  else
    Except.ok s

/-- The observable computations `draw()` can perform before returning or
raising (source lines 881-988). -/
inductive DrawStep
  | calcStreamlines
  | renderPlotly
  | renderPyvista
deriving DecidableEq, Repr

/-- The control flow of `draw()` (source lines 881-988): if `draw_streamlines`
and no streamlines are cached (or recalculation is requested), it first calls
`calculate_streamlines()` (source lines 904-906); only then does it dispatch on
`backend`, raising `ValueError("Bad value of backend!")` for an unsupported
string (source lines 987-988).  Returns the computations performed (in order)
and the outcome. -/
def draw (backend : String) (drawStreamlines hasStreamlines recalculateStreamlines : Bool) :
    List DrawStep × Except String Unit :=
  let pre : List DrawStep :=
    if drawStreamlines && (!hasStreamlines || recalculateStreamlines) then
      [DrawStep.calcStreamlines]
    else []
  if backend = "plotly" then (pre ++ [DrawStep.renderPlotly], Except.ok ())
  else if backend = "pyvista" then (pre ++ [DrawStep.renderPyvista], Except.ok ())
  else (pre, Except.error "Bad value of backend!")

/-!
Section: Concrete fixtures

Rational instantiations of the external collaborators, used by witnesses and
counterexamples.  `ratSqrt` gives the exact Euclidean norm whenever the squared
length is a perfect square, which holds for every vector these configurations
evaluate a norm at.
-/

/-- Exact square root of a nonnegative rational with perfect-square numerator
and denominator (the only values the fixtures below take norms of). -/
def ratSqrt (q : ℚ) : ℚ :=
  (Nat.sqrt q.num.toNat : ℚ) / (Nat.sqrt q.den : ℚ)

/-- Instantiation of the numerical-norm collaborator `np.linalg.norm(row)`:
the exact Euclidean norm on vectors of perfect-square squared length. -/
def qnorm3 (v : Vec3 ℚ) : ℚ :=
  ratSqrt (v.x * v.x + v.y * v.y + v.z * v.z)

/-- A single-panel point array fixture: all points at the origin. -/
def exPts : Fin 1 → Vec3 ℚ := fun _ => ⟨0, 0, 0⟩

/-- A single-panel normal array fixture: unit x normals. -/
def exNormals : Fin 1 → Vec3 ℚ := fun _ => ⟨1, 0, 0⟩

/-- A kernel fixture: induced velocity `(gamma, 0, 0)` independent of position. -/
def exKernelConst : Kernel ℚ := fun _ _ _ _ g _ => ⟨g, 0, 0⟩

/-- An operating-point fixture with steady freestream `(2, 0, 0)` and no rotation. -/
def exOpA : OpData ℚ where
  steadyFreestreamVelocity := ⟨2, 0, 0⟩
  rotationVelocity := fun _ => 0
  density := 1
  dynamicPressure := 1
  kinematicViscosity := 1
  velocity := 2

/-- An operating-point fixture with the same steady freestream as `exOpA` but a
different (nonzero) rotational field, i.e. different body rates p, q, r. -/
def exOpB : OpData ℚ where
  steadyFreestreamVelocity := ⟨2, 0, 0⟩
  rotationVelocity := fun v => ⟨v.y, -v.x, 3 * v.z⟩
  density := 2
  dynamicPressure := 5
  kinematicViscosity := 1
  velocity := 2

/-- A 1x1 dense-solver fixture: divide by the diagonal entry. -/
def exSolve1 : (Fin 1 → Fin 1 → ℚ) → (Fin 1 → ℚ) → (Fin 1 → ℚ) :=
  fun A b i => b i / A i i

/-!
Section: Claim theorems
-/

/-- C1: in every `run()`, the solved circulation `vortex_strengths` satisfies
`AIC * gamma = -b`, where `b i` is the dot product of panel `i`'s normal with
the total freestream velocity at collocation point `i` (steady translation
plus the rotational contribution evaluated there), and `AIC i j` is the normal
component at collocation point `i` of the velocity induced by a
unit-circulation horseshoe vortex at panel `j`.  The hypothesis is the
contract of the external dense solver `np.linalg.solve` at this system. -/
theorem aic_system_solved (solve : (Fin n → Fin n → K) → (Fin n → K) → (Fin n → K))
    (kernel : Kernel K) (norm3 : Vec3 K → K) (colloc normals lv rv : Fin n → Vec3 K)
    (op : OpData K) (align : Bool) (coreRadius : K)
    (hsolve : ∀ i, (∑ j, assembleAIC kernel norm3 colloc normals lv rv op align coreRadius i j *
        vortexStrengths solve kernel norm3 colloc normals lv rv op align coreRadius j) =
      -(freestreamInfluences op colloc normals i))
    (i : Fin n) :
    (∑ j, dot3 (kernel (colloc i) (lv j) (rv j) (trailingVortexDirection norm3 op align)
          1 coreRadius) (normals i) *
        vortexStrengths solve kernel norm3 colloc normals lv rv op align coreRadius j) =
      -(dot3 (op.steadyFreestreamVelocity + op.rotationVelocity (colloc i)) (normals i)) := by
  simpa [assembleAIC, freestreamInfluences, freestreamVelocities] using hsolve i

/-- Witness for `aic_system_solved`: a concrete one-panel system where the
1x1 solver fixture meets the solver contract. -/
theorem aic_system_solved_witness :
    (∑ j : Fin 1, dot3 (exKernelConst (exPts 0) (exPts j) (exPts j)
          (trailingVortexDirection qnorm3 exOpA false) 1 (1 / 100000000)) (exNormals 0) *
        vortexStrengths exSolve1 exKernelConst qnorm3 exPts exNormals exPts exPts exOpA false
          (1 / 100000000) j) =
      -(dot3 (exOpA.steadyFreestreamVelocity + exOpA.rotationVelocity (exPts 0))
        (exNormals 0)) :=
  aic_system_solved exSolve1 exKernelConst qnorm3 exPts exNormals exPts exPts exOpA false
    (1 / 100000000)
    (by
      intro i
      simp [assembleAIC, vortexStrengths, freestreamInfluences, freestreamVelocities,
        exKernelConst, exOpA, exPts, exNormals, exSolve1, dot3, trailingVortexDirection,
        Fin.sum_univ_one, Vec3.add_def, Vec3.zero_def])
    0

/-- C2: the inviscid geometry-axes force on panel `i` is
`density * (V i x l i) * gamma i` with `V i` the total velocity (freestream plus
induced, via `get_velocity_at_points`) at the bound-leg midpoint
`(left_vortex_vertex + right_vortex_vertex) / 2`, `l i` the bound-leg vector
from the left to the right vortex vertex, and `gamma i` the circulation; the
geometry-axes moment is the cross product of (bound-leg midpoint − `xyz_ref`)
with that force. -/
theorem panel_force_moment_formula (st : FlowState K n) (g : Geometry K n) (density : K)
    (xyzRef : Vec3 K) (i : Fin n) :
    forcesGeometry st density (vortexCenters g) (vortexBoundLeg g) i =
        (density * st.gamma i) •
          cross3
            (velocityAt st
              (((1 : K) / 2) • (leftVortexVertices g i + rightVortexVertices g i)))
            (rightVortexVertices g i - leftVortexVertices g i) ∧
      momentsGeometry st density (vortexCenters g) (vortexBoundLeg g) xyzRef i =
        cross3 (((1 : K) / 2) • (leftVortexVertices g i + rightVortexVertices g i) - xyzRef)
          (forcesGeometry st density (vortexCenters g) (vortexBoundLeg g) i) :=
  ⟨rfl, rfl⟩

/-- C7: the assembled AIC matrix depends only on panel geometry, the
trailing-vortex direction and the core radius.  Circulation values are not
inputs of the assembly at all, and the body rates p, q, r enter the run only
through the rotational velocity field, on which the AIC does not depend: two
operating points with the same steady freestream (hence the same
trailing-direction settings) but arbitrarily different rotation fields and
atmosphere scalars yield identical matrices.  As a pure function, the assembly
is reproducible: identical inputs give identical matrices. -/
theorem aic_independent_of_rates (kernel : Kernel K) (norm3 : Vec3 K → K)
    (colloc normals lv rv : Fin n → Vec3 K) (align : Bool) (coreRadius : K)
    (op1 op2 : OpData K)
    (hsteady : op1.steadyFreestreamVelocity = op2.steadyFreestreamVelocity) :
    assembleAIC kernel norm3 colloc normals lv rv op1 align coreRadius =
      assembleAIC kernel norm3 colloc normals lv rv op2 align coreRadius := by
  unfold assembleAIC trailingVortexDirection steadyFreestreamDirection
  rw [hsteady]

/-- Witness for `aic_independent_of_rates`: `exOpA` and `exOpB` share the
steady freestream but differ in their rotation fields (body rates) and
atmosphere scalars. -/
theorem aic_independent_of_rates_witness :
    exOpA.steadyFreestreamVelocity = exOpB.steadyFreestreamVelocity ∧
      assembleAIC exKernelConst qnorm3 exPts exNormals exPts exPts exOpA true (1 / 100000000) =
        assembleAIC exKernelConst qnorm3 exPts exNormals exPts exPts exOpB true
          (1 / 100000000) :=
  ⟨rfl, aic_independent_of_rates exKernelConst qnorm3 exPts exNormals exPts exPts true
    (1 / 100000000) exOpA exOpB rfl⟩

/-- C3: the viscous angle-matching iteration starts from the linear lift model
with slope 5 per radian and zero-lift angle −2 degrees applied to the strip's
inviscid lift coefficient (in degrees: `degPerRad * cLsi / 5 - 2`); while fuel
remains, it stops at the current iterate as soon as the residual
`|cl - cLsi| < 1e-4`, otherwise evaluates the polar, estimates the slope by a
central finite difference with a ±0.25-degree perturbation and applies one
Newton update; after 100 iterations the last iterate is returned with no error
raised. -/
theorem viscous_newton_iteration (polar : ℚ → ℚ) (cLsi degPerRad : ℚ) (fuel : ℕ) (alpha : ℚ)
    (hdeg : degPerRad ≠ 0) :
    viscousMatchAlpha polar degPerRad cLsi =
        newtonLoop polar cLsi 100 (degPerRad * cLsi / 5 - 2) ∧
      (|polar alpha - cLsi| < 1 / 10000 → newtonLoop polar cLsi (fuel + 1) alpha = alpha) ∧
      (¬|polar alpha - cLsi| < 1 / 10000 →
        newtonLoop polar cLsi (fuel + 1) alpha =
          newtonLoop polar cLsi fuel
            (alpha -
              (polar alpha - cLsi) /
                ((polar (alpha + 1 / 4) - polar (alpha - 1 / 4)) / (1 / 2)))) ∧
      newtonLoop polar cLsi 0 alpha = alpha := by
  refine ⟨?_, ?_, ?_, rfl⟩
  · unfold viscousMatchAlpha
    congr 1
    field_simp
    ring
  · intro h
    rw [newtonLoop, if_pos h]
  · intro h
    rw [newtonLoop, if_neg h]
    unfold liftCurveSlope
    rfl

/-- Witness for `viscous_newton_iteration` at the identity polar,
`cLsi = 0`, `degPerRad = 2`, fuel 3, current angle 5. -/
theorem viscous_newton_iteration_witness :
    viscousMatchAlpha (fun a => a) 2 0 = newtonLoop (fun a => a) 0 100 (2 * 0 / 5 - 2) ∧
      (|(fun a : ℚ => a) 5 - 0| < 1 / 10000 → newtonLoop (fun a => a) 0 (3 + 1) 5 = 5) ∧
      (¬|(fun a : ℚ => a) 5 - 0| < 1 / 10000 →
        newtonLoop (fun a => a) 0 (3 + 1) 5 =
          newtonLoop (fun a => a) 0 3
            (5 -
              ((fun a : ℚ => a) 5 - 0) /
                (((fun a : ℚ => a) (5 + 1 / 4) - (fun a : ℚ => a) (5 - 1 / 4)) / (1 / 2)))) ∧
      newtonLoop (fun a => a) 0 0 5 = 5 :=
  viscous_newton_iteration (fun a => a) 0 2 3 5 (by norm_num)

/-- C5: each stability derivative equals
`(perturbed coefficient - base coefficient) / increment * scaling factor`, the
increment being `0.001` for alpha and beta, `0.001 * (2 * velocity) / b_ref`
for p and r, and `0.001 * (2 * velocity) / c_ref` for q, with the perturbed
coefficient produced by a full re-run `runF` on a copy of the operating point
with only that attribute incremented; after the alpha sweep
`x_np = xyz_ref[0] - Cma * (c_ref / CLa)`, and after the beta sweep
`x_np_lateral = xyz_ref[0] - Cnb * (b_ref / CYb)`. -/
theorem stability_derivative_formulas (runF : OpPoint K → Coeffs K) (op : OpPoint K)
    (bref cref degPerRad xyzRef0 : K) (num : Coeffs K → K) :
    stabilityDerivative runF op bref cref degPerRad .alpha num =
        (num (runF { op with alpha := op.alpha + 1 / 1000 }) - num (runF op)) / (1 / 1000) *
          degPerRad ∧
      stabilityDerivative runF op bref cref degPerRad .beta num =
        (num (runF { op with beta := op.beta + 1 / 1000 }) - num (runF op)) / (1 / 1000) *
          degPerRad ∧
      stabilityDerivative runF op bref cref degPerRad .p num =
        (num (runF { op with p := op.p + 1 / 1000 * (2 * op.velocity) / bref }) -
              num (runF op)) /
            (1 / 1000 * (2 * op.velocity) / bref) *
          (2 * op.velocity / bref) ∧
      stabilityDerivative runF op bref cref degPerRad .q num =
        (num (runF { op with q := op.q + 1 / 1000 * (2 * op.velocity) / cref }) -
              num (runF op)) /
            (1 / 1000 * (2 * op.velocity) / cref) *
          (2 * op.velocity / cref) ∧
      stabilityDerivative runF op bref cref degPerRad .r num =
        (num (runF { op with r := op.r + 1 / 1000 * (2 * op.velocity) / bref }) -
              num (runF op)) /
            (1 / 1000 * (2 * op.velocity) / bref) *
          (2 * op.velocity / bref) ∧
      neutralPoint runF op bref cref degPerRad xyzRef0 =
        xyzRef0 -
          stabilityDerivative runF op bref cref degPerRad .alpha Coeffs.Cm *
            (cref / stabilityDerivative runF op bref cref degPerRad .alpha Coeffs.CL) ∧
      lateralNeutralPoint runF op bref cref degPerRad xyzRef0 =
        xyzRef0 -
          stabilityDerivative runF op bref cref degPerRad .beta Coeffs.Cn *
            (bref / stabilityDerivative runF op bref cref degPerRad .beta Coeffs.CY) :=
  ⟨rfl, rfl, rfl, rfl, rfl, rfl, rfl⟩

/-- C6: the sum over strips of the strip lifts `Ls` equals the total inviscid
lift, the negative wind-axes z-component of the sum of all per-panel inviscid
forces — exactly, because the strips partition the panels (row-major reshape)
and the geometry-to-wind conversion is linear. -/
theorem strip_lift_sums_to_total (Mgw : Mat3 K) (forces : Fin (S * C) → Vec3 K) :
    ∑ s : Fin S, stripLift Mgw forces s = -(mulVec3 Mgw (∑ i, forces i)).z := by
  have h1 : ∑ s : Fin S, stripLift Mgw forces s = ∑ i, elementLift Mgw forces i := by
    have e2 : ∑ x : Fin S × Fin C, elementLift Mgw forces (finProdFinEquiv x) =
        ∑ s : Fin S, ∑ c : Fin C, elementLift Mgw forces (finProdFinEquiv (s, c)) :=
      Fintype.sum_prod_type _
    have e1 : ∑ x : Fin S × Fin C, elementLift Mgw forces (finProdFinEquiv x) =
        ∑ i, elementLift Mgw forces i := Equiv.sum_comp finProdFinEquiv _
    rw [← e1, e2]
    rfl
  rw [h1, mulVec3_sum]
  rw [show (∑ i, mulVec3 Mgw (forces i)).z = ∑ i, (mulVec3 Mgw (forces i)).z from
    map_sum (zHom (K := K)) _ _]
  simp [elementLift]

/-- C10: the per-strip side forces use the opposite sign convention from the
returned total: `Ye = -forces_wind_el[1]` sums over strips to the negative
wind-axes y-component of the total inviscid force, while the returned scalar
`Y = force_wind[1]` is the positive wind-axes y-component of the total
(inviscid plus viscous) force. -/
theorem side_force_sign_convention (Mgw Mgb Mbw : Mat3 K) (forces : Fin (S * C) → Vec3 K)
    (profile : Fin S → Vec3 K) :
    (∑ s : Fin S, stripSide Mgw forces s = -(mulVec3 Mgw (∑ i, forces i)).y) ∧
      returnedSide Mgb Mbw (totalForceGeometry forces profile) =
        (mulVec3 Mbw (mulVec3 Mgb ((∑ i, forces i) + ∑ s, profile s))).y := by
  constructor
  · have h1 : ∑ s : Fin S, stripSide Mgw forces s = ∑ i, elementSide Mgw forces i := by
      have e2 : ∑ x : Fin S × Fin C, elementSide Mgw forces (finProdFinEquiv x) =
          ∑ s : Fin S, ∑ c : Fin C, elementSide Mgw forces (finProdFinEquiv (s, c)) :=
        Fintype.sum_prod_type _
      have e1 : ∑ x : Fin S × Fin C, elementSide Mgw forces (finProdFinEquiv x) =
          ∑ i, elementSide Mgw forces i := Equiv.sum_comp finProdFinEquiv _
      rw [← e1, e2]
      rfl
    rw [h1, mulVec3_sum]
    rw [show (∑ i, mulVec3 Mgw (forces i)).y = ∑ i, (mulVec3 Mgw (forces i)).y from
      map_sum (yHom (K := K)) _ _]
    simp [elementSide]
  · rfl

/-- C8: with `n_steps = 2`, the second streamline slice equals the seed
position plus exactly one forward-Euler step of length `length / 2` along the
direction-normalized total velocity evaluated at the seed; and an unspecified
`length` defaults to `5 * c_ref`. -/
theorem streamline_second_slice {m : ℕ} (norm3 : Vec3 K → K) (st : FlowState K n)
    (seeds : Fin m → Vec3 K) (len cref : K) (i : Fin m) :
    calculateStreamlines norm3 st seeds 2 (some len) cref i 1 =
        seeds i +
          (len / 2) • ((1 / norm3 (velocityAt st (seeds i))) • velocityAt st (seeds i)) ∧
      calculateStreamlines norm3 st seeds 2 none cref i 1 =
        seeds i +
          (cref * 5 / 2) •
            ((1 / norm3 (velocityAt st (seeds i))) • velocityAt st (seeds i)) := by
  constructor <;> simp [calculateStreamlines, streamlinePos]

/-- C9 counterexample: calling `draw()` with an unsupported backend while
`draw_streamlines` is on (its default) and no streamlines are cached performs
the streamline computation before raising the backend error, so the error is
not raised "before any computation is performed". -/
theorem draw_precheck_counterexample :
    (draw "vtk" true false false).1 ≠ [] ∧
      (draw "vtk" true false false).2 = Except.error "Bad value of backend!" := by
  exact ⟨by decide, rfl⟩

/-- C9 amended: the constructor raises the descriptive symmetry error before
any solving; `draw()` with an unsupported backend raises the descriptive
backend error, and the error precedes any computation only when no streamline
computation is triggered (`draw_streamlines` off, or streamlines cached and no
recalculation requested); with `draw_streamlines` on and no cached streamlines
the streamline computation runs first. -/
theorem fail_fast_amended (verbose : Bool) (sres cres : ℕ) (vcr : ℚ) (al : Bool)
    (ms b : String) (hp : b ≠ "plotly") (hv : b ≠ "pyvista") (hasStreamlines recalc : Bool) :
    vlmInit true verbose sres cres vcr al ms =
        (Except.error "VLM with symmetry detection not yet implemented!" :
          Except String (VLMSettings ℚ)) ∧
      draw b false hasStreamlines recalc = ([], Except.error "Bad value of backend!") ∧
      draw b true true false = ([], Except.error "Bad value of backend!") ∧
      draw b true false recalc =
        ([DrawStep.calcStreamlines], Except.error "Bad value of backend!") := by
  refine ⟨rfl, ?_, ?_, ?_⟩ <;> simp [draw, hp, hv]

/-- Witness for `fail_fast_amended` at the backend string "vtk". -/
theorem fail_fast_amended_witness :
    vlmInit true false 10 10 (1 / 100000000 : ℚ) false "medium" =
        (Except.error "VLM with symmetry detection not yet implemented!" :
          Except String (VLMSettings ℚ)) ∧
      draw "vtk" false true false = ([], Except.error "Bad value of backend!") ∧
      draw "vtk" true true false = ([], Except.error "Bad value of backend!") ∧
      draw "vtk" true false false =
        ([DrawStep.calcStreamlines], Except.error "Bad value of backend!") :=
  fail_fast_amended false 10 10 (1 / 100000000) false "medium" "vtk" (by decide) (by decide)
    true false

/-!
Section: The viscous force application point (claim C4)

The fixture below is a one-strip, one-chordwise-panel unit-square wing with a
kernel whose induced velocity depends on the field point, so the velocity at
the code's evaluation points `xyz_points` differs in direction from the
velocity at the aerodynamic centers.
-/

/-- A one-strip, one-chordwise-panel unit-square wing fixture. -/
def exGeomStrip : Geometry ℚ (1 * 1) where
  frontLeft := fun _ => ⟨0, 0, 0⟩
  backLeft := fun _ => ⟨1, 0, 0⟩
  backRight := fun _ => ⟨1, 1, 0⟩
  frontRight := fun _ => ⟨0, 1, 0⟩

/-- The strip-level mesh back-left vertices for the fixture. -/
def exStripBL : Fin 1 → Vec3 ℚ := fun _ => ⟨1, 0, 0⟩

/-- A position-dependent kernel fixture: `(3g, 4g, 0)` at field points with
`x = 10`, `(g, 0, 0)` elsewhere. -/
def exKernelPos : Kernel ℚ := fun p _ _ _ g _ =>
  if p.x = 10 then ⟨3 * g, 4 * g, 0⟩ else ⟨g, 0, 0⟩

/-- The solver state for the fixture: unit circulation, no freestream. -/
def exStripState : FlowState ℚ (1 * 1) where
  kernel := exKernelPos
  leftV := fun _ => 0
  rightV := fun _ => 0
  tdir := ⟨1, 0, 0⟩
  gamma := fun _ => 1
  coreRadius := 1 / 100000000
  steady := 0
  rot := fun _ => 0

/-- Unit per-strip profile drag coefficients for the fixture. -/
def exCDps : Fin 1 → ℚ := fun _ => 1

theorem sum_fin_one {M : Type} [AddCommMonoid M] (f : Fin (1 * 1) → M) : ∑ j, f j = f 0 :=
  Fin.sum_univ_one f

theorem qnorm3_eval_force_dir : qnorm3 ⟨3, 4, 0⟩ = 5 := by
  rw [qnorm3, show (3 : ℚ) * 3 + 4 * 4 + 0 * 0 = 25 by norm_num, ratSqrt]
  norm_num
  rw [show Int.toNat 25 = 25 from rfl, show (25 : ℕ) = 5 * 5 from rfl, Nat.sqrt_eq]
  norm_num

theorem qnorm3_eval_panel_cross : qnorm3 ⟨0, 0, 2⟩ = 2 := by
  rw [qnorm3, show (0 : ℚ) * 0 + 0 * 0 + 2 * 2 = 4 by norm_num, ratSqrt]
  norm_num
  rw [show Int.toNat 4 = 4 from rfl, show (4 : ℕ) = 2 * 2 from rfl, Nat.sqrt_eq]
  norm_num

theorem xyz_eval_points_fixture :
    xyzEvalPoints Nat.one_pos exGeomStrip exStripBL 0 = ⟨10, 1 / 2, 0⟩ := by
  refine Vec3.ext3 _ _ ?_ ?_ ?_ <;>
    simp [xyzEvalPoints, exGeomStrip, exStripBL, Vec3.add_def, Vec3.sub_def, Vec3.smul_def]

theorem aero_centers_fixture :
    aeroCenters Nat.one_pos exGeomStrip 0 = ⟨1 / 4, 1 / 2, 0⟩ := by
  refine Vec3.ext3 _ _ ?_ ?_ ?_ <;>
    norm_num [aeroCenters, exGeomStrip, Vec3.add_def, Vec3.smul_def]

theorem velocity_at_xyz_fixture :
    velocityAt exStripState ⟨10, 1 / 2, 0⟩ = ⟨3, 4, 0⟩ := by
  rw [velocityAt, inducedVelocityAt, sum_fin_one]
  refine Vec3.ext3 _ _ ?_ ?_ ?_ <;>
    simp [exStripState, exKernelPos, Vec3.add_def, Vec3.zero_def]

theorem velocity_at_ac_fixture :
    velocityAt exStripState ⟨1 / 4, 1 / 2, 0⟩ = ⟨1, 0, 0⟩ := by
  rw [velocityAt, inducedVelocityAt, sum_fin_one]
  refine Vec3.ext3 _ _ ?_ ?_ ?_ <;>
    norm_num [exStripState, exKernelPos, Vec3.add_def, Vec3.zero_def]

theorem strip_areas_fixture : stripAreas qnorm3 exGeomStrip 0 = 1 := by
  rw [stripAreas, stripSum, Fin.sum_univ_one, areas]
  rw [show panelCross exGeomStrip (panelIndex 0 0) = ⟨0, 0, 2⟩ by
    refine Vec3.ext3 _ _ ?_ ?_ ?_ <;>
      norm_num [panelCross, diag1, diag2, cross3, exGeomStrip, Vec3.sub_def]]
  rw [qnorm3_eval_panel_cross]
  norm_num

theorem profile_force_fixture :
    forcesProfileGeometry qnorm3 exStripState 1 Nat.one_pos exGeomStrip exStripBL exCDps 0 =
      ⟨15 / 2, 10, 0⟩ := by
  rw [forcesProfileGeometry]
  rw [xyz_eval_points_fixture, velocity_at_xyz_fixture, qnorm3_eval_force_dir,
    strip_areas_fixture]
  refine Vec3.ext3 _ _ ?_ ?_ ?_ <;>
    norm_num [exCDps, Vec3.smul_def]

/-- C4 counterexample: in the fixture run, the strip's viscous profile-drag
force is not a scalar multiple of — hence not aligned with — the local total
velocity at the strip's aerodynamic center; the code evaluates the velocity at
`xyz_points` (x-coordinate overwritten to `10 * strip_back_left_vertices[:, 0]`)
instead. -/
theorem profile_force_alignment_counterexample :
    ¬∃ c : ℚ,
      forcesProfileGeometry qnorm3 exStripState 1 Nat.one_pos exGeomStrip exStripBL exCDps 0 =
        c • velocityAt exStripState (aeroCenters Nat.one_pos exGeomStrip 0) := by
  rintro ⟨c, h⟩
  rw [profile_force_fixture, aero_centers_fixture, velocity_at_ac_fixture] at h
  have hy := congrArg Vec3.y h
  rw [Vec3.smul_def] at hy
  norm_num at hy

/-- C4 amended: the dimensional viscous profile-drag force on each strip is a
scalar multiple of (hence aligned with) the local total velocity evaluated not
at the aerodynamic center but at `xyz_points`, whose x-coordinate is
`10 * strip_back_left_vertices[:, 0]` (the y and z coordinates being the
midpoint of the trailing-edge panel's front edge); the viscous moment is taken
about `xyz_ref` with the force applied at the aerodynamic center
(`0.75 * leading-edge front + 0.25 * trailing-edge back` edge midpoints); the
viscous contributions are added to the inviscid totals in geometry axes before
conversion to body/wind axes. -/
theorem profile_force_application_points (norm3 : Vec3 K → K) (st : FlowState K (S * C))
    (density : K) (hC : 0 < C) (g : Geometry K (S * C)) (stripBackLeft : Fin S → Vec3 K)
    (CDps : Fin S → K) (xyzRef : Vec3 K) (inviscid : Fin (S * C) → Vec3 K)
    (Mgb Mbw : Mat3 K) (s : Fin S) :
    forcesProfileGeometry norm3 st density hC g stripBackLeft CDps s =
        (((1 : K) / 2) * density *
            norm3 (velocityAt st (xyzEvalPoints hC g stripBackLeft s)) *
            CDps s * stripAreas norm3 g s) •
          velocityAt st (xyzEvalPoints hC g stripBackLeft s) ∧
      (xyzEvalPoints hC g stripBackLeft s).x = 10 * (stripBackLeft s).x ∧
      momentsProfileGeometry norm3 st density hC g stripBackLeft CDps xyzRef s =
        cross3 (aeroCenters hC g s - xyzRef)
          (forcesProfileGeometry norm3 st density hC g stripBackLeft CDps s) ∧
      totalForceGeometry inviscid
          (forcesProfileGeometry norm3 st density hC g stripBackLeft CDps) =
        (∑ i, inviscid i) +
          ∑ t, forcesProfileGeometry norm3 st density hC g stripBackLeft CDps t ∧
      forceWind Mgb Mbw
          (totalForceGeometry inviscid
            (forcesProfileGeometry norm3 st density hC g stripBackLeft CDps)) =
        mulVec3 Mbw
          (mulVec3 Mgb
            (totalForceGeometry inviscid
              (forcesProfileGeometry norm3 st density hC g stripBackLeft CDps))) :=
  ⟨rfl, rfl, rfl, rfl, rfl⟩

/-- An identity-matrix fixture for the axis-conversion collaborators. -/
def exMatI : Mat3 ℚ := ⟨⟨1, 0, 0⟩, ⟨0, 1, 0⟩, ⟨0, 0, 1⟩⟩

/-- A zero inviscid force array fixture. -/
def exInviscidZero : Fin (1 * 1) → Vec3 ℚ := fun _ => 0

/-- Witness for `profile_force_application_points` on the fixture
configuration. -/
theorem profile_force_application_points_witness :
    forcesProfileGeometry qnorm3 exStripState 1 Nat.one_pos exGeomStrip exStripBL exCDps 0 =
        (((1 : ℚ) / 2) * 1 *
            qnorm3 (velocityAt exStripState (xyzEvalPoints Nat.one_pos exGeomStrip exStripBL 0)) *
            exCDps 0 * stripAreas qnorm3 exGeomStrip 0) •
          velocityAt exStripState (xyzEvalPoints Nat.one_pos exGeomStrip exStripBL 0) ∧
      (xyzEvalPoints Nat.one_pos exGeomStrip exStripBL 0).x = 10 * (exStripBL 0).x ∧
      momentsProfileGeometry qnorm3 exStripState 1 Nat.one_pos exGeomStrip exStripBL exCDps
          ⟨0, 0, 0⟩ 0 =
        cross3 (aeroCenters Nat.one_pos exGeomStrip 0 - ⟨0, 0, 0⟩)
          (forcesProfileGeometry qnorm3 exStripState 1 Nat.one_pos exGeomStrip exStripBL
            exCDps 0) ∧
      totalForceGeometry exInviscidZero
          (forcesProfileGeometry qnorm3 exStripState 1 Nat.one_pos exGeomStrip exStripBL
            exCDps) =
        (∑ i, exInviscidZero i) +
          ∑ t, forcesProfileGeometry qnorm3 exStripState 1 Nat.one_pos exGeomStrip exStripBL
            exCDps t ∧
      forceWind exMatI exMatI
          (totalForceGeometry exInviscidZero
            (forcesProfileGeometry qnorm3 exStripState 1 Nat.one_pos exGeomStrip exStripBL
              exCDps)) =
        mulVec3 exMatI
          (mulVec3 exMatI
            (totalForceGeometry exInviscidZero
              (forcesProfileGeometry qnorm3 exStripState 1 Nat.one_pos exGeomStrip exStripBL
                exCDps))) :=
  profile_force_application_points qnorm3 exStripState 1 Nat.one_pos exGeomStrip exStripBL
    exCDps ⟨0, 0, 0⟩ exInviscidZero exMatI exMatI 0

end VLM
